import Mathlib

/-!
Shallow embedding of the KrishiSutra agent orchestration layer.

The repository has two front ends sharing the same core logic:
`src/app.py` (Gradio) and `src/main_app.py` (Streamlit).  Both contain a
keyword domain classifier (`auto_select_agent`), an agent cache / builder
dispatcher (`get_agent`), a context-retrieval step over agents exposing
`retrieve_context` and/or `run`, and a Gemini answer wrapper
(`gemini_answer`).  Python exceptions are modelled with an explicit
`PyError` type (`AttributeError` is distinguished because
`src/main_app.py` catches exactly that class); fallible calls return
`Except PyError _`.  External collaborators (the per-domain agent
builders and the Gemini generation service) are parameters, as the spec
treats them as opaque.  File writes performed by `get_agent` when it
stages an uploaded dataset are recorded in an explicit log of paths, and
builder invocations are recorded in a log of builder names, so that
frame/effect claims can be stated.
-/

set_option autoImplicit false

namespace KrishiSutra

/-- A Python exception value.  `src/main_app.py` line 198 catches
`AttributeError` specifically, so that class is distinguished; every
other exception class is collapsed into `otherError`.  The carried
string is `str(e)`. -/
inductive PyError where
  | attributeError (msg : String)
  | otherError (msg : String)
deriving DecidableEq, Repr

/-- Python `str(e)`: the message carried by the exception. -/
def PyError.msg : PyError → String
  | .attributeError m => m
  | .otherError m => m

/-- List-level prefix test used to implement Python's substring operator. -/
def listIsPre : List Char → List Char → Bool
  | [], _ => true
  | _ :: _, [] => false
  | c :: cs, d :: ds => c = d && listIsPre cs ds

/-- List-level substring test: does `w` occur inside `s`? -/
def listContainsSub (w : List Char) : List Char → Bool
  | [] => listIsPre w []
  | d :: rest => listIsPre w (d :: rest) || listContainsSub w rest

/-- Python `word in query` (substring containment) on strings. -/
def containsSub (query word : String) : Bool :=
  listContainsSub word.toList query.toList

/-- Python `str.lower()` (per-character lowering; agrees with Python on
the ASCII keywords and agent names used by the repository). -/
def lowerStr (s : String) : String :=
  String.mk (s.toList.map Char.toLower)

/-- The whitespace characters stripped by Python `str.strip()` (ASCII
set: space, tab, newline, carriage return, vertical tab, form feed). -/
def isPySpace (c : Char) : Bool :=
  c = ' ' || c = '\t' || c = '\n' || c = '\r' || c = Char.ofNat 11 || c = Char.ofNat 12

/-- Python `str.strip()`: drop leading and trailing whitespace. -/
def pyStrip (s : String) : String :=
  String.mk (((s.toList.dropWhile isPySpace).reverse.dropWhile isPySpace).reverse)

/-- Dropdown value `"Auto Detect"` (`src/app.py` line 128). -/
def autoDetectChoice : String := "Auto Detect"

/-- Domain identifier string for the climate domain (`src/app.py` line 58). -/
def climateAgentName : String := "🌦️ Climate Agent"

/-- Domain identifier string for the agriculture domain (`src/app.py` line 60). -/
def agricultureAgentName : String := "🌾 Agriculture Agent"

/-- Domain identifier string for the scheme domain (`src/app.py` line 62). -/
def schemeAgentName : String := "🧾 Scheme Agent"

/-- Domain identifier string for the helpline domain (`src/app.py` line 64). -/
def kccAgentName : String := "☎️ KCC Agent"

/-- Climate keyword set (`src/app.py` line 80). -/
def climateKeywords : List String := ["rain", "temperature", "climate", "weather"]

/-- Agriculture keyword set (`src/app.py` line 82). -/
def agricultureKeywords : List String := ["crop", "yield", "price", "production", "agriculture"]

/-- Scheme keyword set (`src/app.py` line 84). -/
def schemeKeywords : List String := ["scheme", "pmkisan", "subsidy", "beneficiary"]

/-- Helpline keyword set (`src/app.py` line 86). -/
def kccKeywords : List String := ["kcc", "helpline", "call centre"]

/-- Python `any(word in query for word in words)`. -/
def containsAny (query : String) (words : List String) : Bool :=
  words.any (fun w => containsSub query w)

/-- `auto_select_agent` from `src/app.py` lines 78-89: lower-case the
query, test the keyword sets in order climate, agriculture, scheme,
helpline, and fall back to the agriculture domain. -/
def auto_select_agent (user_query : String) : String :=
  if containsAny (lowerStr user_query) climateKeywords then climateAgentName
  else if containsAny (lowerStr user_query) agricultureKeywords then agricultureAgentName
  else if containsAny (lowerStr user_query) schemeKeywords then schemeAgentName
  else if containsAny (lowerStr user_query) kccKeywords then kccAgentName
  else agricultureAgentName

/-- `auto_select_agent` from `src/main_app.py` lines 109-120: identical
keyword tests, but the no-match branch returns `None`. -/
def auto_select_agent_main (user_query : String) : Option String :=
  if containsAny (lowerStr user_query) climateKeywords then some climateAgentName
  else if containsAny (lowerStr user_query) agricultureKeywords then some agricultureAgentName
  else if containsAny (lowerStr user_query) schemeKeywords then some schemeAgentName
  else if containsAny (lowerStr user_query) kccKeywords then some kccAgentName
  else none

/-- True when some keyword of some domain occurs in the lower-cased query. -/
def anyKeywordMatch (q : String) : Bool :=
  containsAny (lowerStr q) climateKeywords || containsAny (lowerStr q) agricultureKeywords ||
  containsAny (lowerStr q) schemeKeywords || containsAny (lowerStr q) kccKeywords

/-- An agent instance.  `tag` stands for the object's identity; the two
optional fields model the two capability shapes an agent may expose
(`retrieve_context` and/or `run`), each taking the query and either
returning a context string or raising. -/
structure Agent where
  tag : Nat
  retrieve_context : Option (String → Except PyError String)
  run : Option (String → Except PyError String)

/-- An uploaded dataset file: its name and its bytes. -/
structure UploadedFile where
  name : String
  content : String

/-- The external collaborators of `get_agent`: the four per-domain agent
builders (each may raise, or return `None`/an agent — `src/app.py` line
69 guards with `if agent:`), plus the configured `DATA_GOV_API_KEY`
(Python truthiness: absent means the empty string). -/
structure Env where
  build_climate : String → Except PyError (Option Agent)
  build_agriculture : String → Except PyError (Option Agent)
  build_scheme : String → Except PyError (Option Agent)
  build_kcc : String → Except PyError (Option Agent)
  data_gov_api_key : String

/-- The mutable process state touched by `get_agent`: the module-level
`agent_cache` dict (`src/app.py` line 40), plus two observation logs —
which builders were invoked, and which staged-file paths were written
(the `open(temp_path, "wb")` write at `src/app.py` lines 50-51). -/
structure CacheState where
  agent_cache : List (String × Agent)
  builder_calls : List String
  staged_writes : List String

/-- First-match lookup in the cache association list (Python dict read). -/
def lookupA (l : List (String × Agent)) (k : String) : Option Agent :=
  match l with
  | [] => none
  | (k2, a) :: rest => if k2 = k then some a else lookupA rest k

/-- Python `os.path.basename`: the part of the path after the last slash. -/
def basename (p : String) : String :=
  String.mk ((p.toList.reverse.takeWhile (fun c => c ≠ '/')).reverse)

/-- Staged path of an uploaded file: `f"data/{os.path.basename(uploaded_file.name)}"`
(`src/app.py` line 48). -/
def stagePath (f : UploadedFile) : String := "data/" ++ basename f.name

/-- The staging step of `get_agent` (`src/app.py` lines 47-51): when an
uploaded file is present its bytes are written to the staged path; the
write is recorded in the `staged_writes` log. -/
def stage (uploaded_file : Option UploadedFile) (st : CacheState) : CacheState :=
  match uploaded_file with
  | some f => { st with staged_writes := st.staged_writes ++ [stagePath f] }
  | none => st

/-- Cache key `f"{agent_choice}_{temp_path or 'default'}"` (`src/app.py` line 53). -/
def cacheKey (agent_choice : String) (uploaded_file : Option UploadedFile) : String :=
  agent_choice ++ "_" ++ (match uploaded_file with | some f => stagePath f | none => "default")

/-- Default dataset path of the climate domain (`src/app.py` line 59). -/
def climateDefaultPath : String := "data/Mean_Temp_IMD_2017.csv"

/-- Default dataset path of the agriculture domain (`src/app.py` line 61). -/
def agricultureDefaultPath : String :=
  "data/Current Daily Price of Various Commodities from Various Markets (Mandi).csv"

/-- Default dataset path of the scheme domain (`src/app.py` line 63). -/
def schemeDefaultPath : String := "data/GetPMKisanDatagov.json"

/-- Invoke one builder, recording the invocation in the builder log. -/
def runBuilder (st : CacheState) (name : String) (r : Except PyError (Option Agent)) :
    Except PyError (Option Agent) × CacheState :=
  (r, { st with builder_calls := st.builder_calls ++ [name] })

/-- The builder dispatch of `get_agent` (`src/app.py` lines 58-67): pick
the builder by the choice string; the helpline branch checks the
credential's truthiness first (`build_kcc_agent(KEY) if KEY else None`);
an unknown choice yields `None`. -/
def buildFor (env : Env) (agent_choice : String) (temp_path : Option String)
    (st : CacheState) : Except PyError (Option Agent) × CacheState :=
  if agent_choice = climateAgentName then
    runBuilder st "climate" (env.build_climate (temp_path.getD climateDefaultPath))
  else if agent_choice = agricultureAgentName then
    runBuilder st "agriculture" (env.build_agriculture (temp_path.getD agricultureDefaultPath))
  else if agent_choice = schemeAgentName then
    runBuilder st "scheme" (env.build_scheme (temp_path.getD schemeDefaultPath))
  else if agent_choice = kccAgentName then
    if env.data_gov_api_key ≠ "" then runBuilder st "kcc" (env.build_kcc env.data_gov_api_key)
    else (Except.ok none, st)
  else (Except.ok none, st)

/-- `get_agent` from `src/app.py` lines 42-72: stage the uploaded file
(unconditionally, before the cache lookup), compute the cache key,
return the cached instance on a hit; on a miss run the builder dispatch
and store the result only when it is a (truthy) agent.  A raising
builder propagates (`Except.error`); `None` results are returned but
never cached. -/
def get_agent (env : Env) (agent_choice : String) (uploaded_file : Option UploadedFile)
    (st : CacheState) : Except PyError (Option Agent) × CacheState :=
  match lookupA (stage uploaded_file st).agent_cache (cacheKey agent_choice uploaded_file) with
  | some a => (Except.ok (some a), stage uploaded_file st)
  | none =>
    match buildFor env agent_choice (uploaded_file.map stagePath) (stage uploaded_file st) with
    | (Except.ok (some a), st2) =>
      (Except.ok (some a),
       { st2 with agent_cache := st2.agent_cache ++ [(cacheKey agent_choice uploaded_file, a)] })
    | (r, st2) => (r, st2)

/-- The external Gemini generation service: takes the full prompt and
either raises or returns `response.text` (`none` or `some ""` are the
falsy results Python's `or` replaces). -/
def GenService : Type := String → Except PyError (Option String)

/-- The prompt template of `gemini_answer` (`src/app.py` lines 99-110). -/
def mkPrompt (context prompt : String) : String :=
  "\nYou are an AI assistant for smart agriculture - KrishiSutra.\nUse the following context to answer the question accurately.\n\nContext:\n"
    ++ context
    ++ "\n\nQuestion:\n"
    ++ prompt
    ++ "\n\nProvide a concise, factual, and human-readable answer.\n"

/-- The fixed substitute answer for a falsy service result (`src/app.py` line 112). -/
def noResponseMsg : String := "⚠️ No response generated."

/-- `gemini_answer` from `src/app.py` lines 95-114: call the service on
the composed prompt; any exception becomes `"❌ Error: " + str(e)`; a
falsy `response.text` becomes the fixed no-response message. -/
def gemini_answer (gem : GenService) (prompt context : String) : String :=
  match gem (mkPrompt context prompt) with
  | Except.error e => "❌ Error: " ++ e.msg
  | Except.ok none => noResponseMsg
  | Except.ok (some t) => if t = "" then noResponseMsg else t

/-- The retrieval dispatch of `src/app.py` lines 141-144: if the agent
has a `retrieve_context` attribute call it, otherwise call `run`; when
neither attribute exists the `qa_agent.run` attribute access itself
raises `AttributeError` (inside the surrounding `try`). -/
def retrieve_app (a : Agent) (q : String) : Except PyError String :=
  match a.retrieve_context with
  | some f => f q
  | none =>
    match a.run with
    | some g => g q
    | none => Except.error (PyError.attributeError "object has no attribute run")

/-- The `except AttributeError` fallback body of `src/main_app.py` line
200: call `qa_agent.run`; a missing `run` attribute raises
`AttributeError` (uncaught there). -/
def runFallback (a : Agent) (q : String) : Except PyError String :=
  match a.run with
  | some g => g q
  | none => Except.error (PyError.attributeError "object has no attribute run")

/-- The retrieval step of `src/main_app.py` lines 196-200:
`try: context = qa_agent.retrieve_context(user_query)` —
`except AttributeError: context = qa_agent.run(user_query)`.
The handler catches an `AttributeError` raised anywhere in the `try`
body: both the attribute access on an agent lacking `retrieve_context`
and an `AttributeError` raised inside the call itself trigger the `run`
fallback; every other exception propagates. -/
def retrieve_main (a : Agent) (q : String) : Except PyError String :=
  match a.retrieve_context with
  | some f =>
    match f q with
    | Except.error (PyError.attributeError _) => runFallback a q
    | r => r
  | none => runFallback a q

/-- Steps 3-4 of the Streamlit submit block (`src/main_app.py` lines
195-206), given an already-resolved agent: retrieve context, then
synthesize and append one turn.  There is no handler around the
retrieval other than the `AttributeError` fallback inside
`retrieve_main`, so any other exception propagates out (an `error`
result here is an uncaught exception reaching the UI layer). -/
def main_retrieval_and_record (gem : GenService) (a : Agent) (q : String)
    (hist : List (String × String)) : Except PyError (List (String × String)) :=
  match retrieve_main a q with
  | Except.error e => Except.error e
  | Except.ok context => Except.ok (hist ++ [(q, gemini_answer gem q context)])

/-- Step 1 of `chat_handler` (`src/app.py` lines 127-129): resolve
`"Auto Detect"` through the classifier, otherwise keep the manual choice. -/
def selected_of (agent_choice user_query : String) : String :=
  if agent_choice = autoDetectChoice then auto_select_agent user_query else agent_choice

/-- The observable result of one `chat_handler` call: the returned pair
(or an uncaught exception), the final cache state, and how many times
the classifier, a retrieval capability, and the generation service were
invoked. -/
structure ChatResult where
  outcome : Except PyError (List (String × String) × String)
  state : CacheState
  classifications : Nat
  retrievals : Nat
  generations : Nat

/-- `chat_handler` from `src/app.py` lines 120-156: blank queries return
the history unchanged; otherwise resolve the domain, get the agent (a
falsy agent yields a failed-initialization turn; a raising builder
propagates), retrieve context (any exception there becomes an error
turn), and finally append one turn whose answer is `gemini_answer`'s
result. -/
def chat_handler (env : Env) (gem : GenService) (user_query agent_choice : String)
    (uploaded_file : Option UploadedFile) (chat_history : List (String × String))
    (st : CacheState) : ChatResult :=
  if user_query = "" ∨ pyStrip user_query = "" then
    ⟨Except.ok (chat_history, ""), st, 0, 0, 0⟩
  else
    match get_agent env (selected_of agent_choice user_query) uploaded_file st with
    | (Except.error e, st') =>
      ⟨Except.error e, st', if agent_choice = autoDetectChoice then 1 else 0, 0, 0⟩
    | (Except.ok none, st') =>
      ⟨Except.ok (chat_history ++ [(user_query,
         "❌ Failed to initialize " ++ selected_of agent_choice user_query)], ""),
       st', if agent_choice = autoDetectChoice then 1 else 0, 0, 0⟩
    | (Except.ok (some qa_agent), st') =>
      match retrieve_app qa_agent user_query with
      | Except.error e =>
        ⟨Except.ok
           (chat_history ++ [(user_query, "❌ Error retrieving context: " ++ e.msg)], ""),
         st', if agent_choice = autoDetectChoice then 1 else 0,
         if qa_agent.retrieve_context.isSome || qa_agent.run.isSome then 1 else 0, 0⟩
      | Except.ok context =>
        ⟨Except.ok (chat_history ++ [(user_query, gemini_answer gem user_query context)], ""),
         st', if agent_choice = autoDetectChoice then 1 else 0,
         if qa_agent.retrieve_context.isSome || qa_agent.run.isSome then 1 else 0, 1⟩

/-- A concrete agent exposing only `retrieve_context`. -/
def wAgent : Agent :=
  ⟨1, some (fun _ => Except.ok "climate context"), none⟩

/-- A concrete agent exposing only `run`. -/
def runOnlyAgent : Agent :=
  ⟨2, none, some (fun _ => Except.ok "run context")⟩

/-- A concrete builder environment whose climate builder succeeds with
`wAgent` and whose credential is present. -/
def wEnv : Env :=
  ⟨fun _ => Except.ok (some wAgent), fun _ => Except.ok (some runOnlyAgent),
   fun _ => Except.ok none, fun _ => Except.ok none, "demo-key"⟩

/-- The empty cache state. -/
def emptyState : CacheState := ⟨[], [], []⟩

/-- The state after one successful climate build from the empty state. -/
def wSt1 : CacheState :=
  ⟨[(cacheKey climateAgentName none, wAgent)], ["climate"], []⟩

/-- An environment whose climate builder raises. -/
def failEnv : Env :=
  ⟨fun _ => Except.error (PyError.otherError "bad dataset"), fun _ => Except.ok none,
   fun _ => Except.ok none, fun _ => Except.ok none, "demo-key"⟩

/-- An environment with the helpline credential absent (empty string). -/
def noKeyEnv : Env :=
  ⟨fun _ => Except.ok (some wAgent), fun _ => Except.ok (some wAgent),
   fun _ => Except.ok (some wAgent), fun _ => Except.ok (some wAgent), ""⟩

/-- A generation service that always succeeds. -/
def gemOk : GenService := fun _ => Except.ok (some "final answer")

/-- A generation service that always raises. -/
def gemRaise : GenService := fun _ => Except.error (PyError.otherError "quota exceeded")

/-- A generation service that returns a falsy (`None`) result. -/
def gemEmpty : GenService := fun _ => Except.ok none

/-- A concrete uploaded dataset file. -/
def hitFile : UploadedFile := ⟨"x.csv", "bytes"⟩

/-- A concrete cached agent used for cache-hit scenarios. -/
def hitAgent : Agent := ⟨7, some (fun _ => Except.ok "cached context"), none⟩

/-- A state in which the climate agent built from the uploaded file
`hitFile` is already cached, and no writes have been logged yet. -/
def hitState : CacheState :=
  ⟨[(cacheKey climateAgentName (some hitFile), hitAgent)], [], []⟩

/-- An agent exposing both capabilities whose `retrieve_context` raises
an `AttributeError` internally. -/
def attrRaisingAgent : Agent :=
  ⟨3, some (fun _ => Except.error (PyError.attributeError "inner attribute missing")),
   some (fun _ => Except.ok "run context")⟩

/-- An agent whose `retrieve_context` raises a non-`AttributeError`. -/
def valueRaisingAgent : Agent :=
  ⟨4, some (fun _ => Except.error (PyError.otherError "boom")), none⟩

/-- The file paths written by the staging step for a given upload argument. -/
def stagingWrites : Option UploadedFile → List String
  | some f => [stagePath f]
  | none => []

/-- An environment whose climate builder returns the raising agent. -/
def raisingRetrievalEnv : Env :=
  ⟨fun _ => Except.ok (some valueRaisingAgent), fun _ => Except.ok none,
   fun _ => Except.ok none, fun _ => Except.ok none, "demo-key"⟩

/-- The state after the climate build of `raisingRetrievalEnv` from the
empty state. -/
def raisingRetrievalSt : CacheState :=
  ⟨[(cacheKey climateAgentName none, valueRaisingAgent)], ["climate"], []⟩

/-! Helper lemmas about the staging step, the builder dispatch, and the
cache association list. -/

theorem stage_agent_cache (f : Option UploadedFile) (st : CacheState) :
    (stage f st).agent_cache = st.agent_cache := by
  cases f <;> rfl

theorem stage_builder_calls (f : Option UploadedFile) (st : CacheState) :
    (stage f st).builder_calls = st.builder_calls := by
  cases f <;> rfl

theorem stage_staged_writes (f : Option UploadedFile) (st : CacheState) :
    (stage f st).staged_writes = st.staged_writes ++ stagingWrites f := by
  cases f <;> simp [stage, stagingWrites]

theorem buildFor_agent_cache (env : Env) (c : String) (p : Option String) (st : CacheState) :
    (buildFor env c p st).2.agent_cache = st.agent_cache := by
  unfold buildFor runBuilder
  split_ifs <;> rfl

theorem buildFor_staged_writes (env : Env) (c : String) (p : Option String) (st : CacheState) :
    (buildFor env c p st).2.staged_writes = st.staged_writes := by
  unfold buildFor runBuilder
  split_ifs <;> rfl

theorem buildFor_fst_state_independent (env : Env) (c : String) (p : Option String)
    (st st' : CacheState) : (buildFor env c p st).1 = (buildFor env c p st').1 := by
  unfold buildFor runBuilder
  split_ifs <;> rfl

theorem buildFor_some_builder_calls (env : Env) (c : String) (p : Option String)
    (st : CacheState) (a : Agent) (h : (buildFor env c p st).1 = Except.ok (some a)) :
    (buildFor env c p st).2.builder_calls.length = st.builder_calls.length + 1 := by
  unfold buildFor runBuilder at h ⊢
  split_ifs at h ⊢ <;> simp_all

theorem lookupA_append_some (l : List (String × Agent)) (k : String) (a : Agent)
    (h : lookupA l k = none) : lookupA (l ++ [(k, a)]) k = some a := by
  induction l with
  | nil => simp [lookupA]
  | cons hd tl ih =>
    obtain ⟨k2, b⟩ := hd
    by_cases hk : k2 = k
    · simp [lookupA, hk] at h
    · simp only [lookupA, List.cons_append, if_neg hk] at h ⊢
      exact ih h

theorem lookupA_none_not_mem (l : List (String × Agent)) (k : String)
    (h : lookupA l k = none) : k ∉ l.map Prod.fst := by
  induction l with
  | nil => simp
  | cons hd tl ih =>
    obtain ⟨k2, b⟩ := hd
    by_cases hk : k2 = k
    · simp [lookupA, hk] at h
    · simp only [lookupA, if_neg hk] at h
      simp only [List.map_cons, List.mem_cons, not_or]
      exact ⟨fun h2 => hk h2.symm, ih h⟩

theorem nodup_append_key (l : List (String × Agent)) (k : String) (a : Agent)
    (h : lookupA l k = none) (hn : (l.map Prod.fst).Nodup) :
    ((l ++ [(k, a)]).map Prod.fst).Nodup := by
  have hnm := lookupA_none_not_mem l k h
  simp only [List.map_append, List.map_cons, List.map_nil]
  rw [List.nodup_append]
  refine ⟨hn, List.nodup_singleton k, ?_⟩
  intro x hx hx2
  simp only [List.mem_singleton] at hx2
  exact hnm (hx2 ▸ hx)

/-- C1: For every cache key (domain choice, dataset reference), calling
`get_agent` twice with no intervening failure returns the identical
agent instance both times, the underlying domain builder is invoked
exactly once across the two calls (the second call neither rebuilds nor
touches the cache), and the cache never holds more than one live agent
instance per distinct key (key-uniqueness is preserved). -/
theorem getAgent_cache_once
    (env : Env) (choice : String) (file : Option UploadedFile) (st0 : CacheState)
    (a : Agent) (st1 : CacheState)
    (hmiss : lookupA st0.agent_cache (cacheKey choice file) = none)
    (h1 : get_agent env choice file st0 = (Except.ok (some a), st1)) :
    get_agent env choice file st1 = (Except.ok (some a), stage file st1) ∧
    (stage file st1).agent_cache = st1.agent_cache ∧
    (stage file st1).builder_calls = st1.builder_calls ∧
    st1.builder_calls.length = st0.builder_calls.length + 1 ∧
    ((st0.agent_cache.map Prod.fst).Nodup → (st1.agent_cache.map Prod.fst).Nodup) := by
  unfold get_agent at h1
  split at h1
  · rename_i x heq
    rw [stage_agent_cache, hmiss] at heq
    cases heq
  · rename_i heq
    split at h1
    · rename_i a' st2 hb
      have hfst : (buildFor env choice (file.map stagePath) (stage file st0)).1 =
          Except.ok (some a') := by rw [hb]
      have hcache : st2.agent_cache = st0.agent_cache := by
        have h := buildFor_agent_cache env choice (file.map stagePath) (stage file st0)
        rw [hb, stage_agent_cache] at h
        exact h
      have hcalls : st2.builder_calls.length = st0.builder_calls.length + 1 := by
        have h := buildFor_some_builder_calls env choice (file.map stagePath)
          (stage file st0) a' hfst
        rw [hb, stage_builder_calls] at h
        exact h
      have haa : a' = a := by
        have h := congrArg Prod.fst h1
        simpa using h
      have hsnd : ({ st2 with
          agent_cache := st2.agent_cache ++ [(cacheKey choice file, a')] } : CacheState) =
          st1 := congrArg Prod.snd h1
      subst hsnd
      rw [← haa]
      refine ⟨?_, stage_agent_cache file _, stage_builder_calls file _, ?_, ?_⟩
      · unfold get_agent
        have hl : lookupA
            (stage file { st2 with
              agent_cache := st2.agent_cache ++ [(cacheKey choice file, a')] }).agent_cache
            (cacheKey choice file) = some a' := by
          rw [stage_agent_cache]
          show lookupA (st2.agent_cache ++ [(cacheKey choice file, a')])
            (cacheKey choice file) = some a'
          rw [hcache]
          exact lookupA_append_some st0.agent_cache (cacheKey choice file) a' hmiss
        rw [hl]
      · show st2.builder_calls.length = st0.builder_calls.length + 1
        exact hcalls
      · intro hn
        show ((st2.agent_cache ++ [(cacheKey choice file, a')]).map Prod.fst).Nodup
        rw [hcache]
        exact nodup_append_key st0.agent_cache (cacheKey choice file) a' hmiss hn
    · rename_i r st2 hne hb
      exact absurd (congrArg Prod.fst h1) (hne a)

/-- C1 witness: a fresh climate build followed by a second call on the
same key returns the same instance, with exactly one builder invocation
and a key-unique cache. -/
theorem getAgent_cache_once_witness :
    lookupA emptyState.agent_cache (cacheKey climateAgentName none) = none ∧
    get_agent wEnv climateAgentName none emptyState = (Except.ok (some wAgent), wSt1) ∧
    (get_agent wEnv climateAgentName none wSt1 = (Except.ok (some wAgent), stage none wSt1) ∧
     (stage none wSt1).agent_cache = wSt1.agent_cache ∧
     (stage none wSt1).builder_calls = wSt1.builder_calls ∧
     wSt1.builder_calls.length = emptyState.builder_calls.length + 1 ∧
     ((emptyState.agent_cache.map Prod.fst).Nodup → (wSt1.agent_cache.map Prod.fst).Nodup)) :=
  ⟨rfl, rfl, getAgent_cache_once wEnv climateAgentName none emptyState wAgent wSt1 rfl rfl⟩

/-- C7: if an agent build fails — the builder raises, or the dispatch
yields a falsy result (`None`), including the helpline domain with its
credential absent — the cache stores nothing for the key, the key is
still absent afterwards, and a subsequent call with the same key
re-attempts the build (it behaves exactly like the first call did). -/
theorem getAgent_failure_not_cached
    (env : Env) (choice : String) (file : Option UploadedFile) (st0 : CacheState)
    (r : Except PyError (Option Agent)) (st1 : CacheState)
    (h : get_agent env choice file st0 = (r, st1))
    (hfail : r = Except.ok none ∨ ∃ e, r = Except.error e) :
    st1.agent_cache = st0.agent_cache ∧
    lookupA st1.agent_cache (cacheKey choice file) = none ∧
    (get_agent env choice file st1).1 = r := by
  unfold get_agent at h
  split at h
  · rename_i x heq
    have hr : Except.ok (some x) = r := congrArg Prod.fst h
    rcases hfail with hf | ⟨e, hf⟩ <;> rw [hf] at hr <;> cases hr
  · rename_i heq
    split at h
    · rename_i a' st2 hb
      have hr : Except.ok (some a') = r := congrArg Prod.fst h
      rcases hfail with hf | ⟨e, hf⟩ <;> rw [hf] at hr <;> cases hr
    · rename_i r0 st2 hne hb
      have hr : r = r0 := (congrArg Prod.fst h).symm
      have hst : st1 = st2 := (congrArg Prod.snd h).symm
      subst hr
      subst hst
      have hcache : st1.agent_cache = st0.agent_cache := by
        have hc := buildFor_agent_cache env choice (file.map stagePath) (stage file st0)
        rw [hb, stage_agent_cache] at hc
        exact hc
      have hmiss0 : lookupA st0.agent_cache (cacheKey choice file) = none := by
        rw [stage_agent_cache] at heq
        exact heq
      refine ⟨hcache, by rw [hcache]; exact hmiss0, ?_⟩
      unfold get_agent
      have hl : lookupA (stage file st1).agent_cache (cacheKey choice file) = none := by
        rw [stage_agent_cache, hcache]
        exact hmiss0
      have hfst := buildFor_fst_state_independent env choice (file.map stagePath)
        (stage file st1) (stage file st0)
      rw [hb] at hfst
      split
      · rename_i x heq2
        rw [hl] at heq2
        cases heq2
      · rename_i heq2
        split
        · rename_i a2 st3 hb2
          rw [hb2] at hfst
          simp only [] at hfst
          exact absurd hfst.symm (hne a2)
        · rename_i r2 st3 hne2 hb2
          rw [hb2] at hfst
          exact hfst

/-- C7 witness: a raising climate builder leaves the cache empty and the
second call re-attempts (returning the same error). -/
theorem getAgent_failure_not_cached_witness :
    get_agent failEnv climateAgentName none emptyState =
      (Except.error (PyError.otherError "bad dataset"), ⟨[], ["climate"], []⟩) ∧
    ((⟨[], ["climate"], []⟩ : CacheState).agent_cache = emptyState.agent_cache ∧
     lookupA (⟨[], ["climate"], []⟩ : CacheState).agent_cache
       (cacheKey climateAgentName none) = none ∧
     (get_agent failEnv climateAgentName none ⟨[], ["climate"], []⟩).1 =
       Except.error (PyError.otherError "bad dataset")) :=
  ⟨rfl,
   getAgent_failure_not_cached failEnv climateAgentName none emptyState
     (Except.error (PyError.otherError "bad dataset")) ⟨[], ["climate"], []⟩ rfl
     (Or.inr ⟨PyError.otherError "bad dataset", rfl⟩)⟩

/-- C8: when the helpline domain is requested with its credential
absent (falsy), the lookup fails (returns a falsy agent) before any
builder is invoked (the builder log is unchanged), and `chat_handler`
reports this as a failed conversation turn (a normal return, not an
uncaught exception). -/
theorem kcc_missing_credential_handled
    (env : Env) (gem : GenService) (file : Option UploadedFile)
    (hist : List (String × String)) (st : CacheState) (q : String)
    (hq : ¬(q = "" ∨ pyStrip q = ""))
    (hcred : env.data_gov_api_key = "")
    (hmiss : lookupA st.agent_cache (cacheKey kccAgentName file) = none) :
    get_agent env kccAgentName file st = (Except.ok none, stage file st) ∧
    (stage file st).builder_calls = st.builder_calls ∧
    (chat_handler env gem q kccAgentName file hist st).outcome =
      Except.ok (hist ++ [(q, "❌ Failed to initialize " ++ kccAgentName)], "") := by
  have hbuild : buildFor env kccAgentName (file.map stagePath) (stage file st) =
      (Except.ok none, stage file st) := by
    unfold buildFor
    rw [if_neg (by decide), if_neg (by decide), if_neg (by decide), if_pos rfl, hcred]
    rw [if_neg (by simp)]
  have hga : get_agent env kccAgentName file st = (Except.ok none, stage file st) := by
    unfold get_agent
    split
    · rename_i x heq
      rw [stage_agent_cache, hmiss] at heq
      cases heq
    · rename_i heq
      split
      · rename_i a2 st3 hb2
        rw [hbuild] at hb2
        simp at hb2
      · rename_i r2 st3 hne2 hb2
        rw [hbuild] at hb2
        exact hb2.symm
  have hsel : selected_of kccAgentName q = kccAgentName := by
    unfold selected_of
    rw [if_neg (by decide)]
  refine ⟨hga, stage_builder_calls file st, ?_⟩
  unfold chat_handler
  rw [if_neg hq, hsel, hga]

/-- C8 witness: the helpline choice with an empty credential yields a
failed-initialization turn and no builder call, from the empty state. -/
theorem kcc_missing_credential_handled_witness :
    ¬(("kcc balance" : String) = "" ∨ pyStrip "kcc balance" = "") ∧
    noKeyEnv.data_gov_api_key = "" ∧
    lookupA emptyState.agent_cache (cacheKey kccAgentName none) = none ∧
    (get_agent noKeyEnv kccAgentName none emptyState = (Except.ok none, stage none emptyState) ∧
     (stage none emptyState).builder_calls = emptyState.builder_calls ∧
     (chat_handler noKeyEnv gemOk "kcc balance" kccAgentName none [] emptyState).outcome =
       Except.ok ([("kcc balance", "❌ Failed to initialize " ++ kccAgentName)], "")) :=
  ⟨by decide, rfl, rfl,
   kcc_missing_credential_handled noKeyEnv gemOk none [] emptyState "kcc balance"
     (by decide) rfl rfl⟩

/-- C9 counterexample: with the climate/`x.csv` key already cached and
the upload still supplied, `get_agent` is a cache hit (it returns the
cached instance) and yet writes the uploaded file to the working area
again: the staged-write log grows from empty to one entry.  This
contradicts the claim that no write of the uploaded file occurs when
the key is already cached. -/
theorem cache_hit_restages_upload :
    lookupA hitState.agent_cache (cacheKey climateAgentName (some hitFile)) = some hitAgent ∧
    hitState.staged_writes = [] ∧
    (get_agent wEnv climateAgentName (some hitFile) hitState).1 = Except.ok (some hitAgent) ∧
    (get_agent wEnv climateAgentName (some hitFile) hitState).2.staged_writes =
      ["data/x.csv"] :=
  ⟨rfl, rfl, rfl, rfl⟩

/-- C9 amended: on a cache hit `get_agent` returns the existing
instance unchanged, performs no rebuild (builder log unchanged) and
leaves the cache untouched; however the uploaded file, when present, is
staged (written) before the cache lookup on every call, so a hit with
an upload still performs exactly the staging write. -/
theorem cache_hit_amended
    (env : Env) (choice : String) (file : Option UploadedFile) (st : CacheState) (a : Agent)
    (hhit : lookupA st.agent_cache (cacheKey choice file) = some a) :
    get_agent env choice file st = (Except.ok (some a), stage file st) ∧
    (stage file st).agent_cache = st.agent_cache ∧
    (stage file st).builder_calls = st.builder_calls ∧
    (stage file st).staged_writes = st.staged_writes ++ stagingWrites file := by
  refine ⟨?_, stage_agent_cache file st, stage_builder_calls file st,
    stage_staged_writes file st⟩
  unfold get_agent
  split
  · rename_i x heq
    rw [stage_agent_cache, hhit] at heq
    injection heq with heq
    rw [heq]
  · rename_i heq
    rw [stage_agent_cache, hhit] at heq
    cases heq

/-- C9 amended witness: the cache-hit call at the concrete cached state. -/
theorem cache_hit_amended_witness :
    lookupA hitState.agent_cache (cacheKey climateAgentName (some hitFile)) = some hitAgent ∧
    (get_agent wEnv climateAgentName (some hitFile) hitState =
       (Except.ok (some hitAgent), stage (some hitFile) hitState) ∧
     (stage (some hitFile) hitState).agent_cache = hitState.agent_cache ∧
     (stage (some hitFile) hitState).builder_calls = hitState.builder_calls ∧
     (stage (some hitFile) hitState).staged_writes =
       hitState.staged_writes ++ stagingWrites (some hitFile)) :=
  ⟨rfl, cache_hit_amended wEnv climateAgentName (some hitFile) hitState hitAgent rfl⟩

/-- C10: a query that is empty or all whitespace makes `chat_handler`
return the history unchanged with an empty textbox, leave the cache
state untouched (no build, no staging write), and perform no
classification, no retrieval-capability call and no generation call. -/
theorem chat_handler_blank_query
    (env : Env) (gem : GenService) (choice : String) (file : Option UploadedFile)
    (hist : List (String × String)) (st : CacheState) (q : String)
    (hq : q = "" ∨ pyStrip q = "") :
    chat_handler env gem q choice file hist st = ⟨Except.ok (hist, ""), st, 0, 0, 0⟩ := by
  unfold chat_handler
  rw [if_pos hq]

/-- C10 witness: the all-whitespace query at concrete arguments. -/
theorem chat_handler_blank_query_witness :
    ((" \t " : String) = "" ∨ pyStrip " \t " = "") ∧
    chat_handler wEnv gemOk " \t " autoDetectChoice none [("a", "b")] emptyState =
      ⟨Except.ok ([("a", "b")], ""), emptyState, 0, 0, 0⟩ :=
  ⟨Or.inr (by decide),
   chat_handler_blank_query wEnv gemOk autoDetectChoice none [("a", "b")] emptyState " \t "
     (Or.inr (by decide))⟩

/-- C2 counterexample: the claim says the classifier always returns one
of the four concrete domains — never a no-match result — but the
Streamlit variant (`src/main_app.py` lines 109-120) returns `None` for
a query matching no keyword. -/
theorem classifier_no_match_returns_none :
    anyKeywordMatch "hello there" = false ∧
    auto_select_agent_main "hello there" = none := by
  exact ⟨by decide, by decide⟩

/-- C2 amended: both classifier variants are deterministic pure
functions of the lower-cased query; the Gradio variant
(`src/app.py`) always returns one of the four concrete domains,
defaulting to the agriculture domain when no keyword matches; the
Streamlit variant agrees with it whenever some keyword matches but
returns the no-match result `None` (prompting manual selection)
otherwise. -/
theorem classifier_amended :
    (∀ q1 q2 : String, lowerStr q1 = lowerStr q2 →
       auto_select_agent q1 = auto_select_agent q2 ∧
       auto_select_agent_main q1 = auto_select_agent_main q2) ∧
    (∀ q : String, auto_select_agent q = climateAgentName ∨
       auto_select_agent q = agricultureAgentName ∨
       auto_select_agent q = schemeAgentName ∨
       auto_select_agent q = kccAgentName) ∧
    (∀ q : String, anyKeywordMatch q = false →
       auto_select_agent q = agricultureAgentName ∧ auto_select_agent_main q = none) ∧
    (∀ q : String, anyKeywordMatch q = true →
       auto_select_agent_main q = some (auto_select_agent q)) := by
  refine ⟨?_, ?_, ?_, ?_⟩
  · intro q1 q2 h
    constructor
    · unfold auto_select_agent
      rw [h]
    · unfold auto_select_agent_main
      rw [h]
  · intro q
    unfold auto_select_agent
    split_ifs <;> simp
  · intro q h
    rw [anyKeywordMatch, Bool.or_eq_false_iff, Bool.or_eq_false_iff,
      Bool.or_eq_false_iff] at h
    obtain ⟨⟨⟨h1, h2⟩, h3⟩, h4⟩ := h
    constructor
    · unfold auto_select_agent
      simp [h1, h2, h3, h4]
    · unfold auto_select_agent_main
      simp [h1, h2, h3, h4]
  · intro q h
    unfold auto_select_agent auto_select_agent_main
    by_cases h1 : containsAny (lowerStr q) climateKeywords = true
    · simp [h1]
    · by_cases h2 : containsAny (lowerStr q) agricultureKeywords = true
      · simp [h1, h2]
      · by_cases h3 : containsAny (lowerStr q) schemeKeywords = true
        · simp [h1, h2, h3]
        · by_cases h4 : containsAny (lowerStr q) kccKeywords = true
          · simp [h1, h2, h3, h4]
          · exfalso
            rw [anyKeywordMatch] at h
            simp only [Bool.or_eq_true] at h
            rcases h with ((h | h) | h) | h
            · exact h1 h
            · exact h2 h
            · exact h3 h
            · exact h4 h

/-- C2 amended witness: the amended classifier properties at concrete
queries (a case-variant pair, a no-match query, and a matching query). -/
theorem classifier_amended_witness :
    lowerStr "Rain" = lowerStr "rAIN" ∧
    (auto_select_agent "Rain" = auto_select_agent "rAIN" ∧
     auto_select_agent_main "Rain" = auto_select_agent_main "rAIN") ∧
    anyKeywordMatch "hello there" = false ∧
    (auto_select_agent "hello there" = agricultureAgentName ∧
     auto_select_agent_main "hello there" = none) ∧
    anyKeywordMatch "need a subsidy" = true ∧
    auto_select_agent_main "need a subsidy" = some (auto_select_agent "need a subsidy") :=
  ⟨by decide, classifier_amended.1 "Rain" "rAIN" (by decide), by decide,
   classifier_amended.2.2.1 "hello there" (by decide), by decide,
   classifier_amended.2.2.2 "need a subsidy" (by decide)⟩

/-- C3: both classifier variants test the keyword sets in the fixed
priority order climate, agriculture, scheme, helpline, with the first
match winning; in particular the query "List government schemes for
farmers" routes to the scheme domain, which is distinct from the
helpline domain. -/
theorem classifier_priority_order :
    (∀ q : String, containsAny (lowerStr q) climateKeywords = true →
       auto_select_agent q = climateAgentName ∧
       auto_select_agent_main q = some climateAgentName) ∧
    (∀ q : String, containsAny (lowerStr q) climateKeywords = false →
       containsAny (lowerStr q) agricultureKeywords = true →
       auto_select_agent q = agricultureAgentName ∧
       auto_select_agent_main q = some agricultureAgentName) ∧
    (∀ q : String, containsAny (lowerStr q) climateKeywords = false →
       containsAny (lowerStr q) agricultureKeywords = false →
       containsAny (lowerStr q) schemeKeywords = true →
       auto_select_agent q = schemeAgentName ∧
       auto_select_agent_main q = some schemeAgentName) ∧
    (∀ q : String, containsAny (lowerStr q) climateKeywords = false →
       containsAny (lowerStr q) agricultureKeywords = false →
       containsAny (lowerStr q) schemeKeywords = false →
       containsAny (lowerStr q) kccKeywords = true →
       auto_select_agent q = kccAgentName ∧
       auto_select_agent_main q = some kccAgentName) ∧
    auto_select_agent "List government schemes for farmers" = schemeAgentName ∧
    auto_select_agent_main "List government schemes for farmers" = some schemeAgentName ∧
    schemeAgentName ≠ kccAgentName := by
  refine ⟨?_, ?_, ?_, ?_, by decide, by decide, by decide⟩
  · intro q h1
    constructor
    · unfold auto_select_agent
      simp [h1]
    · unfold auto_select_agent_main
      simp [h1]
  · intro q h1 h2
    constructor
    · unfold auto_select_agent
      simp [h1, h2]
    · unfold auto_select_agent_main
      simp [h1, h2]
  · intro q h1 h2 h3
    constructor
    · unfold auto_select_agent
      simp [h1, h2, h3]
    · unfold auto_select_agent_main
      simp [h1, h2, h3]
  · intro q h1 h2 h3 h4
    constructor
    · unfold auto_select_agent
      simp [h1, h2, h3, h4]
    · unfold auto_select_agent_main
      simp [h1, h2, h3, h4]

/-- C3 witness: the priority cases at concrete queries (one query per
priority tier, each discharging all keyword hypotheses). -/
theorem classifier_priority_order_witness :
    (containsAny (lowerStr "will it rain") climateKeywords = true ∧
     (auto_select_agent "will it rain" = climateAgentName ∧
      auto_select_agent_main "will it rain" = some climateAgentName)) ∧
    (containsAny (lowerStr "mandi rate of wheat crop") climateKeywords = false ∧
     containsAny (lowerStr "mandi rate of wheat crop") agricultureKeywords = true ∧
     (auto_select_agent "mandi rate of wheat crop" = agricultureAgentName ∧
      auto_select_agent_main "mandi rate of wheat crop" = some agricultureAgentName)) ∧
    (containsAny (lowerStr "pmkisan beneficiary status") schemeKeywords = true ∧
     (auto_select_agent "pmkisan beneficiary status" = schemeAgentName ∧
      auto_select_agent_main "pmkisan beneficiary status" = some schemeAgentName)) ∧
    (containsAny (lowerStr "kisan call centre number") kccKeywords = true ∧
     (auto_select_agent "kisan call centre number" = kccAgentName ∧
      auto_select_agent_main "kisan call centre number" = some kccAgentName)) :=
  ⟨⟨by decide, classifier_priority_order.1 "will it rain" (by decide)⟩,
   ⟨by decide, by decide,
    classifier_priority_order.2.1 "mandi rate of wheat crop" (by decide) (by decide)⟩,
   ⟨by decide,
    classifier_priority_order.2.2.1 "pmkisan beneficiary status" (by decide) (by decide)
      (by decide)⟩,
   ⟨by decide,
    classifier_priority_order.2.2.2.1 "kisan call centre number" (by decide) (by decide)
      (by decide) (by decide)⟩⟩

/-- C4 counterexample: the claim says the retrieval step uses
`retrieve_context` exclusively whenever the agent exposes it, but in
the Streamlit variant an exposed `retrieve_context` that raises an
`AttributeError` internally triggers the `except AttributeError`
fallback, so the `run` capability is invoked and its value becomes the
context. -/
theorem retrieve_main_not_exclusive :
    attrRaisingAgent.retrieve_context.isSome = true ∧
    attrRaisingAgent.run.isSome = true ∧
    retrieve_main attrRaisingAgent "q" = Except.ok "run context" ∧
    runFallback attrRaisingAgent "q" = Except.ok "run context" := by
  exact ⟨rfl, rfl, rfl, rfl⟩

/-- C4 amended: in the Gradio variant the dispatch uses
`retrieve_context` exclusively whenever the attribute is present (even
if `run` is also present) and uses `run`'s value directly when only
`run` is present; in the Streamlit variant this holds except that an
exposed `retrieve_context` raising an `AttributeError` itself also
falls back to `run` (any other outcome of `retrieve_context` passes
through unchanged). -/
theorem retrieve_adapter_amended :
    (∀ (a : Agent) (q : String) (f : String → Except PyError String),
       a.retrieve_context = some f → retrieve_app a q = f q) ∧
    (∀ (a : Agent) (q : String) (g : String → Except PyError String),
       a.retrieve_context = none → a.run = some g → retrieve_app a q = g q) ∧
    (∀ (a : Agent) (q s : String) (f : String → Except PyError String),
       a.retrieve_context = some f → f q = Except.ok s →
       retrieve_main a q = Except.ok s) ∧
    (∀ (a : Agent) (q m : String) (f : String → Except PyError String),
       a.retrieve_context = some f → f q = Except.error (PyError.otherError m) →
       retrieve_main a q = Except.error (PyError.otherError m)) ∧
    (∀ (a : Agent) (q m : String) (f g : String → Except PyError String),
       a.retrieve_context = some f → f q = Except.error (PyError.attributeError m) →
       a.run = some g → retrieve_main a q = g q) ∧
    (∀ (a : Agent) (q : String) (g : String → Except PyError String),
       a.retrieve_context = none → a.run = some g → retrieve_main a q = g q) := by
  refine ⟨?_, ?_, ?_, ?_, ?_, ?_⟩
  · intro a q f h
    simp [retrieve_app, h]
  · intro a q g h hg
    simp [retrieve_app, h, hg]
  · intro a q s f h hf
    simp [retrieve_main, h, hf]
  · intro a q m f h hf
    simp [retrieve_main, h, hf]
  · intro a q m f g h hf hg
    simp [retrieve_main, h, hf, runFallback, hg]
  · intro a q g h hg
    simp [retrieve_main, h, runFallback, hg]

/-- C4 amended witness: the adapter cases at concrete agents (a
structured agent, a run-only agent, and the fallback-triggering agent). -/
theorem retrieve_adapter_amended_witness :
    wAgent.retrieve_context = some (fun _ => Except.ok "climate context") ∧
    retrieve_app wAgent "q1" = Except.ok "climate context" ∧
    runOnlyAgent.retrieve_context = none ∧
    runOnlyAgent.run = some (fun _ => Except.ok "run context") ∧
    retrieve_app runOnlyAgent "q2" = Except.ok "run context" ∧
    retrieve_main runOnlyAgent "q2" = Except.ok "run context" ∧
    retrieve_main attrRaisingAgent "q3" = Except.ok "run context" :=
  ⟨rfl,
   retrieve_adapter_amended.1 wAgent "q1" (fun _ => Except.ok "climate context") rfl,
   rfl, rfl,
   retrieve_adapter_amended.2.1 runOnlyAgent "q2" (fun _ => Except.ok "run context") rfl rfl,
   retrieve_adapter_amended.2.2.2.2.2 runOnlyAgent "q2"
     (fun _ => Except.ok "run context") rfl rfl,
   retrieve_adapter_amended.2.2.2.2.1 attrRaisingAgent "q3" "inner attribute missing"
     (fun _ => Except.error (PyError.attributeError "inner attribute missing"))
     (fun _ => Except.ok "run context") rfl rfl rfl⟩

/-- C5 counterexample: the claim says any exception from a retrieval
capability is converted and never propagates raw to the UI layer, but
in the Streamlit variant a non-`AttributeError` exception raised by
`retrieve_context` propagates uncaught out of the submit block: the
result is the raw error and no conversation turn is recorded. -/
theorem main_retrieval_error_propagates :
    valueRaisingAgent.retrieve_context.isSome = true ∧
    main_retrieval_and_record gemOk valueRaisingAgent "q" [] =
      Except.error (PyError.otherError "boom") := by
  exact ⟨rfl, rfl⟩

/-- C5 amended: in the Gradio variant's `chat_handler` any exception
from either retrieval capability is caught and converted into an error
turn carrying the original message (a normal return); in the Streamlit
variant a non-`AttributeError` exception raised by an exposed
`retrieve_context` propagates uncaught, with no turn recorded (there,
an `AttributeError` triggers the `run` fallback instead of a
conversion). -/
theorem retrieval_error_converted_amended :
    (∀ (env : Env) (gem : GenService) (q choice : String) (file : Option UploadedFile)
       (hist : List (String × String)) (st st' : CacheState) (a : Agent) (e : PyError),
       ¬(q = "" ∨ pyStrip q = "") →
       get_agent env (selected_of choice q) file st = (Except.ok (some a), st') →
       retrieve_app a q = Except.error e →
       (chat_handler env gem q choice file hist st).outcome =
         Except.ok (hist ++ [(q, "❌ Error retrieving context: " ++ e.msg)], "")) ∧
    (∀ (gem : GenService) (a : Agent) (q m : String) (hist : List (String × String))
       (f : String → Except PyError String),
       a.retrieve_context = some f → f q = Except.error (PyError.otherError m) →
       main_retrieval_and_record gem a q hist = Except.error (PyError.otherError m)) := by
  constructor
  · intro env gem q choice file hist st st' a e hq hget hr
    unfold chat_handler
    rw [if_neg hq]
    split
    · rename_i e2 st2 heg
      rw [hget] at heg
      cases heg
    · rename_i st2 heg
      rw [hget] at heg
      simp at heg
    · rename_i qa st2 heg
      rw [hget] at heg
      have hqa : a = qa := by simpa using congrArg Prod.fst heg
      have hst : st' = st2 := congrArg Prod.snd heg
      subst hqa
      subst hst
      rw [hr]
  · intro gem a q m hist f h hf
    simp [main_retrieval_and_record, retrieve_main, h, hf]

/-- C5 amended witness: the conversion at a concrete raising agent in
the Gradio handler, and the concrete propagation in the Streamlit
variant. -/
theorem retrieval_error_converted_amended_witness :
    ¬(("rain data" : String) = "" ∨ pyStrip "rain data" = "") ∧
    get_agent raisingRetrievalEnv (selected_of climateAgentName "rain data") none emptyState =
      (Except.ok (some valueRaisingAgent), raisingRetrievalSt) ∧
    retrieve_app valueRaisingAgent "rain data" = Except.error (PyError.otherError "boom") ∧
    (chat_handler raisingRetrievalEnv gemOk "rain data" climateAgentName none [] emptyState).outcome =
      Except.ok ([("rain data", "❌ Error retrieving context: boom")], "") ∧
    main_retrieval_and_record gemOk valueRaisingAgent "rain data" [] =
      Except.error (PyError.otherError "boom") :=
  ⟨by decide, rfl, rfl,
   retrieval_error_converted_amended.1 raisingRetrievalEnv gemOk "rain data" climateAgentName
     none [] emptyState raisingRetrievalSt valueRaisingAgent (PyError.otherError "boom")
     (by decide) rfl rfl,
   retrieval_error_converted_amended.2 gemOk valueRaisingAgent "rain data" "boom" []
     (fun _ => Except.error (PyError.otherError "boom")) rfl rfl⟩

/-! String helper lemmas for the answer-synthesizer claim. -/

theorem string_data_append (s t : String) : (s ++ t).data = s.data ++ t.data := rfl

theorem append_ne_empty_left (p s : String) (hp : p.data ≠ []) : p ++ s ≠ "" := by
  intro h
  apply hp
  have h2 : (p ++ s).data = ([] : List Char) := by rw [h]
  rw [string_data_append] at h2
  exact (List.append_eq_nil.mp h2).1

/-- C6: `gemini_answer` never raises past its boundary — a raising
service becomes a string prefixed with the failure marker, a falsy
(`None`/empty) service result becomes the fixed no-response message,
the answer produced is never the empty string, and when the service
raises inside `chat_handler` exactly one new turn is appended whose
answer text is the marker-prefixed error string. -/
theorem gemini_answer_defensive :
    (∀ (gem : GenService) (q c : String) (e : PyError),
       gem (mkPrompt c q) = Except.error e →
       gemini_answer gem q c = "❌ Error: " ++ e.msg) ∧
    (∀ (gem : GenService) (q c : String),
       gem (mkPrompt c q) = Except.ok none ∨ gem (mkPrompt c q) = Except.ok (some "") →
       gemini_answer gem q c = noResponseMsg) ∧
    (∀ (gem : GenService) (q c : String), gemini_answer gem q c ≠ "") ∧
    (∀ (env : Env) (gem : GenService) (q choice c : String) (file : Option UploadedFile)
       (hist : List (String × String)) (st st' : CacheState) (a : Agent) (e : PyError),
       ¬(q = "" ∨ pyStrip q = "") →
       get_agent env (selected_of choice q) file st = (Except.ok (some a), st') →
       retrieve_app a q = Except.ok c →
       gem (mkPrompt c q) = Except.error e →
       (chat_handler env gem q choice file hist st).outcome =
         Except.ok (hist ++ [(q, "❌ Error: " ++ e.msg)], "") ∧
       (hist ++ [(q, "❌ Error: " ++ e.msg)]).length = hist.length + 1) := by
  have hmark : ∀ (gem : GenService) (q c : String) (e : PyError),
      gem (mkPrompt c q) = Except.error e →
      gemini_answer gem q c = "❌ Error: " ++ e.msg := by
    intro gem q c e h
    simp [gemini_answer, h]
  refine ⟨hmark, ?_, ?_, ?_⟩
  · intro gem q c h
    rcases h with h | h <;> simp [gemini_answer, h]
  · intro gem q c
    unfold gemini_answer
    rcases hgem : gem (mkPrompt c q) with e | o
    · exact append_ne_empty_left "❌ Error: " e.msg (by decide)
    · rcases o with _ | t
      · decide
      · show (if t = "" then noResponseMsg else t) ≠ ""
        by_cases ht : t = ""
        · rw [if_pos ht]
          decide
        · rw [if_neg ht]
          exact ht
  · intro env gem q choice c file hist st st' a e hq hget hr hgem
    constructor
    · unfold chat_handler
      rw [if_neg hq]
      split
      · rename_i e2 st2 heg
        rw [hget] at heg
        cases heg
      · rename_i st2 heg
        rw [hget] at heg
        simp at heg
      · rename_i qa st2 heg
        rw [hget] at heg
        have hqa : a = qa := by simpa using congrArg Prod.fst heg
        have hst : st' = st2 := congrArg Prod.snd heg
        subst hqa
        subst hst
        rw [hr]
        show Except.ok (hist ++ [(q, gemini_answer gem q c)], "") =
          Except.ok (hist ++ [(q, "❌ Error: " ++ e.msg)], "")
        rw [hmark gem q c e hgem]
    · simp

/-- C6 witness: a raising generation service at concrete inputs — the
marker-prefixed answer, the fixed no-response substitution, the
non-empty guarantee, and the single recorded failure turn. -/
theorem gemini_answer_defensive_witness :
    gemRaise (mkPrompt "ctx" "q") = Except.error (PyError.otherError "quota exceeded") ∧
    gemini_answer gemRaise "q" "ctx" = "❌ Error: " ++ (PyError.otherError "quota exceeded").msg ∧
    (gemEmpty (mkPrompt "ctx" "q") = Except.ok none ∨
       gemEmpty (mkPrompt "ctx" "q") = Except.ok (some "")) ∧
    gemini_answer gemEmpty "q" "ctx" = noResponseMsg ∧
    gemini_answer gemOk "q" "ctx" ≠ "" ∧
    ¬(("rain level" : String) = "" ∨ pyStrip "rain level" = "") ∧
    get_agent wEnv (selected_of climateAgentName "rain level") none emptyState =
      (Except.ok (some wAgent), wSt1) ∧
    retrieve_app wAgent "rain level" = Except.ok "climate context" ∧
    ((chat_handler wEnv gemRaise "rain level" climateAgentName none [] emptyState).outcome =
       Except.ok ([("rain level", "❌ Error: " ++ (PyError.otherError "quota exceeded").msg)], "") ∧
     ([] ++ [("rain level", "❌ Error: " ++ (PyError.otherError "quota exceeded").msg)]).length =
       ([] : List (String × String)).length + 1) :=
  ⟨rfl,
   gemini_answer_defensive.1 gemRaise "q" "ctx" (PyError.otherError "quota exceeded") rfl,
   Or.inl rfl,
   gemini_answer_defensive.2.1 gemEmpty "q" "ctx" (Or.inl rfl),
   gemini_answer_defensive.2.2.1 gemOk "q" "ctx",
   by decide, rfl, rfl,
   gemini_answer_defensive.2.2.2 wEnv gemRaise "rain level" climateAgentName "climate context"
     none [] emptyState wSt1 wAgent (PyError.otherError "quota exceeded")
     (by decide) rfl rfl rfl⟩

end KrishiSutra
